import Mathlib

/-!
Verification of the pizza POS backend (src/main.py).

Shallow embedding of the FastAPI order-management backend: the role
permission table, the JWT session codec, and the order/auth endpoint
handlers. Handlers are modelled as pure functions from their inputs
(decoded session claims, request payload, the behaviour of the external
store given as a function from store calls to responses) to the list of
store calls they issue together with the HTTP outcome.
-/

namespace PosApp

/-- JSON-like values, for request/response bodies exchanged with the store. -/
inductive JVal where
  | jnull
  | jbool (b : Bool)
  | jint (n : Int)
  | jstr (s : String)
  | jobj (fields : List (String × JVal))
  | jarr (elems : List JVal)
deriving Repr

/-- Encode a Python `Optional[str]` field as JSON. -/
def jOptStr : Option String → JVal
  | none => .jnull
  | some s => .jstr s

/-- Encode a Python `Optional[int]` field as JSON. -/
def jOptInt : Option Int → JVal
  | none => .jnull
  | some n => .jint n

/-- Python f-string interpolation of an `Optional[str]`: `None` prints as "None". -/
def pyStr : Option String → String
  | none => "None"
  | some s => s

/-- The boolean capability set attached to each role (values of
`ROLE_PERMISSIONS` in src/main.py). -/
structure Permissions where
  canCreateOrder : Bool
  canEditOrder : Bool
  canViewOrders : Bool
  canPayOrder : Bool
  canViewReports : Bool
  canManageCash : Bool
deriving DecidableEq, Repr

/-- The `ROLE_PERMISSIONS` dict of src/main.py lines 42-47. -/
def ROLE_PERMISSIONS : List (String × Permissions) :=
  [("admin",   ⟨true, true, true, true, true, true⟩),
   ("manager", ⟨true, true, true, true, true, true⟩),
   ("staff",   ⟨true, false, false, false, false, false⟩),
   ("kitchen", ⟨false, false, true, false, false, false⟩)]

/-- The "staff" entry of the table (`ROLE_PERMISSIONS["staff"]`). -/
def staffPerms : Permissions := ⟨true, false, false, false, false, false⟩

/-- `ROLE_PERMISSIONS.get(role, ROLE_PERMISSIONS["staff"])` from src/main.py
line 108: dict lookup with the "staff" entry as default. -/
def permissions_for (role : String) : Permissions :=
  (ROLE_PERMISSIONS.lookup role).getD staffPerms

/-- The claims dict placed in the JWT at login (src/main.py lines 109-116),
without the `exp` claim that `create_jwt` adds. Fields are `Option` because
the Python code reads them with `dict.get`, which yields `None` when absent. -/
structure SessionPayload where
  user_id : Option Int
  username : Option String
  full_name : Option String
  store_code : Option String
  role : Option String
  perms : Permissions
deriving DecidableEq, Repr

/-- A session token as transported in the cookie. A structurally valid JWT
is `signed payload exp secret` where `secret` is the key it was signed with;
anything else (wrong segment count, bad base64, bad header, ...) is
`malformed`. -/
inductive TokenWire where
  | malformed (raw : String)
  | signed (payload : SessionPayload) (exp : Int) (secret : String)
deriving DecidableEq, Repr

/-- An `HTTPException(status_code, detail)`. -/
structure HttpError where
  status : Nat
  detail : String
deriving DecidableEq, Repr

/-- src/main.py line 85: missing/empty cookie. -/
def unauthenticatedErr : HttpError := ⟨401, "Not authenticated"⟩

/-- src/main.py line 78: `jwt.ExpiredSignatureError`. -/
def expiredErr : HttpError := ⟨401, "Token expired"⟩

/-- src/main.py line 80: any other decode failure. -/
def invalidErr : HttpError := ⟨401, "Invalid token"⟩

/-- `create_jwt` (src/main.py lines 68-71): copies the payload, sets
`exp = now + JWT_EXP_MIN * 60`, signs with the configured secret. -/
def create_jwt (payload : SessionPayload) (secret : String) (expMin : Nat)
    (now : Int) : TokenWire :=
  .signed payload (now + expMin * 60) secret

/-- `decode_jwt` (src/main.py lines 74-80) over the decode semantics of PyJWT:
the signature is verified before claim validation, so a token signed with
the wrong key raises `InvalidSignatureError` (caught as "Invalid token")
whatever its `exp`; only a correctly signed token whose `exp` has passed
raises `ExpiredSignatureError` ("Token expired"). -/
def decode_jwt (secret : String) (now : Int) : TokenWire →
    Except HttpError SessionPayload
  | .malformed _ => .error invalidErr
  | .signed payload exp s =>
    if s ≠ secret then .error invalidErr
    else if exp ≤ now then .error expiredErr
    else .ok payload

/-- `get_current_user` (src/main.py lines 83-86): 401 "Not authenticated"
when the `token` cookie is absent, otherwise `decode_jwt`. -/
def get_current_user (cookie : Option TokenWire) (secret : String)
    (now : Int) : Except HttpError SessionPayload :=
  match cookie with
  | none => .error unauthenticatedErr
  | some tok => decode_jwt secret now tok

/-- HTTP method of a call to the external store. -/
inductive Method where
  | get
  | post
  | patch
deriving DecidableEq, Repr

/-- One HTTP request issued to the external store. -/
structure StoreCall where
  method : Method
  url : String
  body : Option JVal
deriving Repr

/-- The response of the store to a call. -/
structure StoreResp where
  status : Nat
  body : JVal
deriving Repr

/-- Result of running a handler: the store calls it issued, in order, and
its outcome (a JSON response or an `HTTPException`). -/
structure HandlerRun where
  calls : List StoreCall
  result : Except HttpError JVal
deriving Repr

/-- A record returned by the `verify_staff_login` RPC
(fields read with `dict.get` in src/main.py lines 110-114). -/
structure UserRecord where
  user_id : Option Int
  username : Option String
  full_name : Option String
  store_code : Option String
  role : Option String
deriving DecidableEq, Repr

/-- The cookie set by `response.set_cookie` (src/main.py line 118). -/
structure Cookie where
  name : String
  value : TokenWire
  httponly : Bool
  secure : Bool
  samesite : String
  maxAge : Nat
deriving DecidableEq, Repr

/-- The JSON body returned by `login` (src/main.py lines 119-126). -/
structure LoginResponse where
  id : Option Int
  username : Option String
  full_name : Option String
  store_code : Option String
  role : Option String
  permissions : Permissions
deriving DecidableEq, Repr

/-- `login` (src/main.py lines 94-126), as a function of the RPC
response (`rpcStatus`, `rpcData`) and the configuration. Non-200 RPC status
or empty result list: 401 "Invalid credentials". Otherwise the first record
is taken, permissions are looked up from its role (defaulting to "staff"
when the key is absent), a JWT is minted and set as the `token` cookie with
`httponly=True, secure=True, samesite="lax", max_age=JWT_EXP_MIN*60`. -/
def login (rpcStatus : Nat) (rpcData : List UserRecord) (secret : String)
    (expMin : Nat) (now : Int) : Except HttpError (LoginResponse × Cookie) :=
  if rpcStatus ≠ 200 then .error ⟨401, "Invalid credentials"⟩
  else
    match rpcData with
    | [] => .error ⟨401, "Invalid credentials"⟩
    | user :: _ =>
      let roles := permissions_for (user.role.getD "staff")
      let claims : SessionPayload :=
        ⟨user.user_id, user.username, user.full_name, user.store_code,
         user.role, roles⟩
      let token := create_jwt claims secret expMin now
      .ok (⟨user.user_id, user.username, user.full_name, user.store_code,
            user.role, roles⟩,
           ⟨"token", token, true, true, "lax", expMin * 60⟩)

/-- The `Order` request model (src/model/order.py). `items` is a
`Dict[str, int]`, modelled as an association list. -/
structure Order where
  order_type : String
  table_number : Option Int
  note : Option String
  items : List (String × Int)
  total : Int
deriving DecidableEq, Repr

/-- `payload.dict()` for an `Order`, in pydantic field order. -/
def orderDict (o : Order) : List (String × JVal) :=
  [("order_type", .jstr o.order_type),
   ("table_number", jOptInt o.table_number),
   ("note", jOptStr o.note),
   ("items", .jobj (o.items.map (fun kv => (kv.1, JVal.jint kv.2)))),
   ("total", .jint o.total)]

/-- `create_order` (src/main.py lines 146-160), given an already resolved
session `user`. Empty `items` or `total <= 0`: 400 "Invalid order" before
any store call. Otherwise the payload dict is enriched with `user_id`,
`store_code`, `status="pending"`, `created_at` (the local clock of the serving process as
current local time, passed in as `createdAt`) and POSTed to
`{SUPABASE_URL}/orders`; store status outside {200, 201} becomes 500
"Failed to create order", otherwise the JSON body from the store is returned. -/
def create_order (payload : Order) (user : SessionPayload)
    (createdAt : String) (baseUrl : String)
    (store : StoreCall → StoreResp) : HandlerRun :=
  if payload.items = [] ∨ payload.total ≤ 0 then
    ⟨[], .error ⟨400, "Invalid order"⟩⟩
  else
    let body : JVal := .jobj (orderDict payload ++
      [("user_id", jOptInt user.user_id),
       ("store_code", jOptStr user.store_code),
       ("status", .jstr "pending"),
       ("created_at", .jstr createdAt)])
    let call : StoreCall := ⟨.post, baseUrl ++ "/orders", some body⟩
    let r := store call
    if r.status = 200 ∨ r.status = 201 then ⟨[call], .ok r.body⟩
    else ⟨[call], .error ⟨500, "Failed to create order"⟩⟩

/-- `update_order` (src/main.py lines 162-175): sessions without
`canEditOrder` get 403 "Forbidden" with no store interaction (no ownership
check is performed); otherwise the arbitrary partial body from the client is
PATCHed to `{SUPABASE_URL}/orders?id=eq.{order_id}`; store status outside
{200, 204} becomes 500 "Failed to update order", else `{ok: true}`. -/
def update_order (orderId : Int) (payload : JVal) (user : SessionPayload)
    (baseUrl : String) (store : StoreCall → StoreResp) : HandlerRun :=
  if !user.perms.canEditOrder then ⟨[], .error ⟨403, "Forbidden"⟩⟩
  else
    let call : StoreCall :=
      ⟨.patch, baseUrl ++ "/orders?id=eq." ++ toString orderId, some payload⟩
    let r := store call
    if r.status = 200 ∨ r.status = 204 then
      ⟨[call], .ok (.jobj [("ok", .jbool true)])⟩
    else ⟨[call], .error ⟨500, "Failed to update order"⟩⟩

/-- `pay_order` (src/main.py lines 177-188): sessions without `canPayOrder`
get 403 "No permission" with no store interaction; otherwise exactly
`{"status": "paid", "payment_method": method}` is PATCHed to
`{SUPABASE_URL}/orders?id=eq.{order_id}`; store status outside {200, 204}
becomes 500 "Failed to update payment", else `{ok: true}`. -/
def pay_order (orderId : Int) (method : String) (user : SessionPayload)
    (baseUrl : String) (store : StoreCall → StoreResp) : HandlerRun :=
  if !user.perms.canPayOrder then ⟨[], .error ⟨403, "No permission"⟩⟩
  else
    let body : JVal :=
      .jobj [("status", .jstr "paid"), ("payment_method", .jstr method)]
    let call : StoreCall :=
      ⟨.patch, baseUrl ++ "/orders?id=eq." ++ toString orderId, some body⟩
    let r := store call
    if r.status = 200 ∨ r.status = 204 then
      ⟨[call], .ok (.jobj [("ok", .jbool true)])⟩
    else ⟨[call], .error ⟨500, "Failed to update payment"⟩⟩

/-- `get_orders` (src/main.py lines 135-144): GETs
`{SUPABASE_URL}/orders?store_code=eq.{store}&or=(status.eq.pending,status.eq.paid)&order=created_at.desc`;
non-200 store status becomes 500 "Failed to fetch orders", else the
JSON body is returned. -/
def get_orders (user : SessionPayload) (baseUrl : String)
    (store : StoreCall → StoreResp) : HandlerRun :=
  let call : StoreCall :=
    ⟨.get, baseUrl ++ "/orders?store_code=eq." ++ pyStr user.store_code ++
      "&or=(status.eq.pending,status.eq.paid)&order=created_at.desc", none⟩
  let r := store call
  if r.status = 200 then ⟨[call], .ok r.body⟩
  else ⟨[call], .error ⟨500, "Failed to fetch orders"⟩⟩

/-- The full `POST /api/orders` request: FastAPI resolves the
`Depends(get_current_user)` dependency before the handler body runs, so any
authentication failure aborts the request before order validation. -/
def create_order_endpoint (cookie : Option TokenWire) (secret : String)
    (nowEpoch : Int) (payload : Order) (createdAt : String)
    (baseUrl : String) (store : StoreCall → StoreResp) : HandlerRun :=
  match get_current_user cookie secret nowEpoch with
  | .error e => ⟨[], .error e⟩
  | .ok user => create_order payload user createdAt baseUrl store

/-- An order row held by the external store. -/
structure DbOrder where
  id : Int
  user_id : Int
  store_code : String
  status : String
  created_at : String
deriving DecidableEq, Repr

/-- Modelled from the spec: the filtered select of the external store (the
upstream `orders` resource of §6, not code under src/), applied to the
exact query string `get_orders` builds —
`store_code=eq.{v}&or=(status.eq.pending,status.eq.paid)&order=created_at.desc`:
keep rows whose `store_code` equals the interpolated session store code and
whose `status` is `pending` or `paid`, sorted by `created_at` descending. -/
def storeSelectOrders (db : List DbOrder) (storeVal : String) :
    List DbOrder :=
  List.insertionSort (fun a b => b.created_at ≤ a.created_at)
    (db.filter (fun o =>
      o.store_code = storeVal ∧ (o.status = "pending" ∨ o.status = "paid")))

/-- The list `GET /api/orders` returns to a session `user` when the store
holds the rows `db` and answers the query of the handler per
`storeSelectOrders`. -/
def get_orders_response (user : SessionPayload) (db : List DbOrder) :
    List DbOrder :=
  storeSelectOrders db (pyStr user.store_code)

/-! Concrete fixtures used by witness theorems. -/

/-- A session with role "staff" (permissions `staffPerms`). -/
def payload0 : SessionPayload :=
  ⟨some 1, some "alice", some "Alice", some "S1", some "staff", staffPerms⟩

/-- A session with role "admin" (all permissions granted). -/
def editorUser : SessionPayload :=
  ⟨some 2, some "dana", none, some "S1", some "admin",
   ⟨true, true, true, true, true, true⟩⟩

/-- A store that always answers 200 with a null body. -/
def storeOk : StoreCall → StoreResp := fun _ => ⟨200, .jnull⟩

/-- An order body with empty items and nonpositive total. -/
def emptyOrder : Order := ⟨"dine_in", none, none, [], 0⟩

/-- A well-formed order body. -/
def order0 : Order := ⟨"dine_in", some 3, none, [("margherita", 2)], 20⟩

/-- C1: session resolution fails with `Unauthenticated` (HTTP 401,
"Not authenticated") when the token cookie is absent, with `Expired`
(HTTP 401, "Token expired") when a correctly signed token is past its
expiry, and with `Invalid` (HTTP 401, "Invalid token") for any structural
failure; a token signed with a secret different from the configured signing
secret fails with `Invalid` whatever its expiry, never with `Expired`. -/
theorem c1_session_failure_modes (secret : String) (now : Int) :
    (get_current_user none secret now = .error unauthenticatedErr ∧
      unauthenticatedErr.status = 401) ∧
    (∀ p exp, exp < now →
      decode_jwt secret now (.signed p exp secret) = .error expiredErr) ∧
    expiredErr = ⟨401, "Token expired"⟩ ∧
    (∀ raw, decode_jwt secret now (.malformed raw) = .error invalidErr) ∧
    invalidErr.status = 401 ∧
    (∀ p exp s, s ≠ secret →
      decode_jwt secret now (.signed p exp s) = .error invalidErr ∧
      decode_jwt secret now (.signed p exp s) ≠ .error expiredErr) := by
  refine ⟨⟨rfl, rfl⟩, ?_, rfl, fun raw => rfl, rfl, ?_⟩
  · intro p exp h
    simp [decode_jwt, h.le]
  · intro p exp s hs
    have heq : decode_jwt secret now (.signed p exp s) = .error invalidErr := by
      simp [decode_jwt, hs]
    refine ⟨heq, ?_⟩
    rw [heq]
    intro hbad
    have hinj : invalidErr = expiredErr := by
      injection hbad
    exact absurd (congrArg HttpError.detail hinj) (by decide)

/-- C1 witness: the four failure modes at concrete inputs. -/
theorem c1_witness :
    get_current_user none "sec" 0 = .error unauthenticatedErr ∧
    decode_jwt "sec" 10 (.signed payload0 5 "sec") = .error expiredErr ∧
    decode_jwt "sec" 0 (.malformed "garbage") = .error invalidErr ∧
    decode_jwt "sec" 0 (.signed payload0 100 "other") = .error invalidErr := by
  have h0 := c1_session_failure_modes "sec" 0
  have h10 := c1_session_failure_modes "sec" 10
  exact ⟨h0.1.1, h10.2.1 payload0 5 (by decide), h0.2.2.2.1 "garbage",
    (h0.2.2.2.2.2 payload0 100 "other" (by decide)).1⟩

/-- C2: `permissions_for` is total over strings, and for every role string
not present in the table it returns exactly the "staff" entry
`{canCreateOrder := true, all others := false}`; that entry is both placed
in the session token and returned by `login` for such a role. -/
theorem c2_unknown_role_gets_staff_perms (r : String)
    (h1 : r ≠ "admin") (h2 : r ≠ "manager") (h3 : r ≠ "staff")
    (h4 : r ≠ "kitchen") :
    permissions_for r = staffPerms ∧
    staffPerms = ⟨true, false, false, false, false, false⟩ ∧
    (∀ (u : UserRecord) (rest : List UserRecord) (secret : String)
        (expMin : Nat) (now : Int), u.role = some r →
      login 200 (u :: rest) secret expMin now =
        .ok (⟨u.user_id, u.username, u.full_name, u.store_code, some r,
              staffPerms⟩,
             ⟨"token",
              .signed ⟨u.user_id, u.username, u.full_name, u.store_code,
                       some r, staffPerms⟩ (now + expMin * 60) secret,
              true, true, "lax", expMin * 60⟩)) := by
  have hperm : permissions_for r = staffPerms := by
    have e1 : (r == "admin") = false := beq_eq_false_iff_ne.mpr h1
    have e2 : (r == "manager") = false := beq_eq_false_iff_ne.mpr h2
    have e3 : (r == "staff") = false := beq_eq_false_iff_ne.mpr h3
    have e4 : (r == "kitchen") = false := beq_eq_false_iff_ne.mpr h4
    simp [permissions_for, ROLE_PERMISSIONS, List.lookup, e1, e2, e3, e4]
  refine ⟨hperm, rfl, ?_⟩
  intro u rest secret expMin now hrole
  simp [login, create_jwt, hrole, hperm]

/-- A `verify_staff_login` record whose role is not in the table. -/
def cashierRec : UserRecord :=
  ⟨some 7, some "bob", none, some "S1", some "cashier"⟩

/-- C2 witness: the unknown role "cashier" resolves to the "staff" entry,
also through `login`. -/
theorem c2_witness :
    permissions_for "cashier" = staffPerms ∧
    login 200 [cashierRec] "sec" 60 0 =
      .ok (⟨some 7, some "bob", none, some "S1", some "cashier", staffPerms⟩,
           ⟨"token",
            .signed ⟨some 7, some "bob", none, some "S1", some "cashier",
                     staffPerms⟩ 3600 "sec",
            true, true, "lax", 3600⟩) := by
  have h := c2_unknown_role_gets_staff_perms "cashier" (by decide) (by decide)
    (by decide) (by decide)
  exact ⟨h.1, h.2.2 cashierRec [] "sec" 60 0 rfl⟩

/-- C3: a session whose permission set lacks `canEditOrder` gets
`Forbidden` (403) from `PATCH /api/orders/{id}` for every behaviour of the
store — in particular also when the store holds an order with that id owned
by the same session user — so no ownership check is performed; only
sessions with `canEditOrder = true` proceed to patch the order. -/
theorem c3_update_order_permission_gate (orderId : Int) (payload : JVal)
    (user : SessionPayload) (baseUrl : String)
    (store : StoreCall → StoreResp) :
    (user.perms.canEditOrder = false →
      update_order orderId payload user baseUrl store =
        ⟨[], .error ⟨403, "Forbidden"⟩⟩) ∧
    (user.perms.canEditOrder = true →
      (update_order orderId payload user baseUrl store).calls =
        [⟨.patch, baseUrl ++ "/orders?id=eq." ++ toString orderId,
          some payload⟩]) := by
  constructor
  · intro h
    simp [update_order, h]
  · intro h
    simp only [update_order, h, Bool.not_true, Bool.false_eq_true,
      if_false]
    split <;> rfl

/-- C3 witness: a staff session (no `canEditOrder`) is refused even though
the only order in the store is its own; an admin session reaches the store. -/
theorem c3_witness :
    update_order 7 .jnull payload0 "http://s" storeOk =
      ⟨[], .error ⟨403, "Forbidden"⟩⟩ ∧
    (update_order 7 .jnull editorUser "http://s" storeOk).calls =
      [⟨.patch, "http://s" ++ "/orders?id=eq." ++ toString (7 : Int),
        some .jnull⟩] := by
  exact ⟨(c3_update_order_permission_gate 7 .jnull payload0 "http://s"
      storeOk).1 rfl,
    (c3_update_order_permission_gate 7 .jnull editorUser "http://s"
      storeOk).2 rfl⟩

/-- C4: with `canPayOrder = true`, `POST /api/orders/{id}/pay?method=m`
issues exactly one store call, a PATCH on `orders?id=eq.{id}` whose body is
exactly `{status: "paid", payment_method: m}`, and when the store accepts
it the response is `{ok: true}`; with `canPayOrder = false` the request
fails with 403 and no store call. -/
theorem c4_pay_order_behaviour (orderId : Int) (m : String)
    (user : SessionPayload) (baseUrl : String)
    (store : StoreCall → StoreResp) :
    (user.perms.canPayOrder = true →
      (pay_order orderId m user baseUrl store).calls =
        [⟨.patch, baseUrl ++ "/orders?id=eq." ++ toString orderId,
          some (.jobj [("status", .jstr "paid"),
                       ("payment_method", .jstr m)])⟩] ∧
      ((store ⟨.patch, baseUrl ++ "/orders?id=eq." ++ toString orderId,
            some (.jobj [("status", .jstr "paid"),
                         ("payment_method", .jstr m)])⟩).status = 200 ∨
       (store ⟨.patch, baseUrl ++ "/orders?id=eq." ++ toString orderId,
            some (.jobj [("status", .jstr "paid"),
                         ("payment_method", .jstr m)])⟩).status = 204 →
        (pay_order orderId m user baseUrl store).result =
          .ok (.jobj [("ok", .jbool true)]))) ∧
    (user.perms.canPayOrder = false →
      pay_order orderId m user baseUrl store =
        ⟨[], .error ⟨403, "No permission"⟩⟩) := by
  constructor
  · intro h
    constructor
    · simp only [pay_order, h, Bool.not_true, Bool.false_eq_true, if_false]
      split <;> rfl
    · intro hs
      simp [pay_order, h, hs]
  · intro h
    simp [pay_order, h]

/-- C4 witness: an admin session paying order 42 in cash, against a store
answering 200; a staff session is refused. -/
theorem c4_witness :
    (pay_order 42 "cash" editorUser "http://s" storeOk).calls =
      [⟨.patch, "http://s" ++ "/orders?id=eq." ++ toString (42 : Int),
        some (.jobj [("status", .jstr "paid"),
                     ("payment_method", .jstr "cash")])⟩] ∧
    (pay_order 42 "cash" editorUser "http://s" storeOk).result =
      .ok (.jobj [("ok", .jbool true)]) ∧
    pay_order 42 "cash" payload0 "http://s" storeOk =
      ⟨[], .error ⟨403, "No permission"⟩⟩ := by
  have ha := c4_pay_order_behaviour 42 "cash" editorUser "http://s" storeOk
  have hb := c4_pay_order_behaviour 42 "cash" payload0 "http://s" storeOk
  exact ⟨(ha.1 rfl).1, (ha.1 rfl).2 (Or.inl rfl), hb.2 rfl⟩

/-- C5 counterexample: a `POST /api/orders` request with NO session cookie
and an invalid body (empty items, total 0) is rejected with 401
"Not authenticated" — the auth dependency runs before body validation — so
the claimed "400 regardless of session validity" is false. -/
theorem c5_counterexample :
    (create_order_endpoint none "sec" 0 emptyOrder "2024-01-01T00:00:00"
        "http://s" storeOk).result = .error ⟨401, "Not authenticated"⟩ ∧
    (401 : Nat) ≠ 400 :=
  ⟨rfl, by decide⟩

/-- C5 amended: for every request whose session cookie decodes successfully,
a body with empty items or total ≤ 0 is rejected with 400 "Invalid order"
(no store call); a request whose session resolution fails is rejected with
that auth error (401) regardless of the body. -/
theorem c5_invalid_order_rejected (cookie : Option TokenWire)
    (secret : String) (nowEpoch : Int) (payload : Order)
    (createdAt baseUrl : String) (store : StoreCall → StoreResp) :
    (∀ user, get_current_user cookie secret nowEpoch = .ok user →
      payload.items = [] ∨ payload.total ≤ 0 →
      create_order_endpoint cookie secret nowEpoch payload createdAt
          baseUrl store = ⟨[], .error ⟨400, "Invalid order"⟩⟩) ∧
    (∀ e, get_current_user cookie secret nowEpoch = .error e →
      create_order_endpoint cookie secret nowEpoch payload createdAt
          baseUrl store = ⟨[], .error e⟩) := by
  constructor
  · intro user hu hbad
    simp [create_order_endpoint, hu, create_order, hbad]
  · intro e he
    simp [create_order_endpoint, he]

/-- A valid token for `payload0`, expiring at epoch second 100. -/
def token0 : TokenWire := .signed payload0 100 "sec"

/-- C5 witness: a valid session posting the empty order gets 400; the same
body with no cookie gets 401. -/
theorem c5_witness :
    create_order_endpoint (some token0) "sec" 0 emptyOrder "t" "http://s"
        storeOk = ⟨[], .error ⟨400, "Invalid order"⟩⟩ ∧
    create_order_endpoint none "sec" 0 emptyOrder "t" "http://s" storeOk =
      ⟨[], .error unauthenticatedErr⟩ := by
  have ha := c5_invalid_order_rejected (some token0) "sec" 0 emptyOrder "t"
    "http://s" storeOk
  have hb := c5_invalid_order_rejected none "sec" 0 emptyOrder "t"
    "http://s" storeOk
  exact ⟨ha.1 payload0 rfl (Or.inl rfl), hb.2 unauthenticatedErr rfl⟩

/-- C6: for every authenticated create-order request with non-empty items
and positive total, the record POSTed to the store is exactly the five
client-submitted fields unchanged followed by exactly the four
server-injected fields `user_id = session.user_id`,
`store_code = session.store_code`, `status = "pending"`,
`created_at = current server time`. -/
theorem c6_create_order_forwarded_record (payload : Order)
    (user : SessionPayload) (createdAt baseUrl : String)
    (store : StoreCall → StoreResp)
    (hitems : payload.items ≠ []) (htotal : 0 < payload.total) :
    (create_order payload user createdAt baseUrl store).calls =
      [⟨.post, baseUrl ++ "/orders",
        some (.jobj
          [("order_type", .jstr payload.order_type),
           ("table_number", jOptInt payload.table_number),
           ("note", jOptStr payload.note),
           ("items", .jobj (payload.items.map
              (fun kv => (kv.1, JVal.jint kv.2)))),
           ("total", .jint payload.total),
           ("user_id", jOptInt user.user_id),
           ("store_code", jOptStr user.store_code),
           ("status", .jstr "pending"),
           ("created_at", .jstr createdAt)])⟩] := by
  have hcond : ¬(payload.items = [] ∨ payload.total ≤ 0) := by
    push_neg
    exact ⟨hitems, htotal⟩
  simp only [create_order, if_neg hcond, orderDict, List.cons_append,
    List.nil_append]
  split <;> rfl

/-- C6 witness: the concrete record forwarded for `order0` under the
`payload0` session. -/
theorem c6_witness :
    (create_order order0 payload0 "2024-01-01T12:00:00" "http://s"
        storeOk).calls =
      [⟨.post, "http://s" ++ "/orders",
        some (.jobj
          [("order_type", .jstr "dine_in"),
           ("table_number", jOptInt (some 3)),
           ("note", jOptStr none),
           ("items", .jobj [("margherita", JVal.jint 2)]),
           ("total", .jint 20),
           ("user_id", jOptInt (some 1)),
           ("store_code", jOptStr (some "S1")),
           ("status", .jstr "pending"),
           ("created_at", .jstr "2024-01-01T12:00:00")])⟩] := by
  exact c6_create_order_forwarded_record order0 payload0
    "2024-01-01T12:00:00" "http://s" storeOk (by decide) (by decide)

/-- C7: `GET /api/orders` issues exactly the store query filtering by
`store_code = session.store_code` and `status ∈ {pending, paid}` ordered by
`created_at` descending, and under that select semantics every order in the
response matches the session store code (so a session for "S1" never sees
an order of another store) and has status pending or paid, and the response
is sorted by `created_at` descending. -/
theorem c7_get_orders_store_scoped (user : SessionPayload)
    (db : List DbOrder) (baseUrl : String) (store : StoreCall → StoreResp) :
    (get_orders user baseUrl store).calls =
      [⟨.get, baseUrl ++ "/orders?store_code=eq." ++ pyStr user.store_code ++
        "&or=(status.eq.pending,status.eq.paid)&order=created_at.desc",
        none⟩] ∧
    (∀ o ∈ get_orders_response user db,
      o.store_code = pyStr user.store_code ∧
      (o.status = "pending" ∨ o.status = "paid")) ∧
    List.Sorted (fun a b => b.created_at ≤ a.created_at)
      (get_orders_response user db) := by
  refine ⟨?_, ?_, ?_⟩
  · simp only [get_orders]
    split <;> rfl
  · intro o ho
    simp only [get_orders_response, storeSelectOrders,
      List.mem_insertionSort, List.mem_filter, decide_eq_true_eq] at ho
    exact ho.2
  · haveI : IsTotal DbOrder (fun a b => b.created_at ≤ a.created_at) :=
      ⟨fun a b => le_total b.created_at a.created_at⟩
    haveI : IsTrans DbOrder (fun a b => b.created_at ≤ a.created_at) :=
      ⟨fun _ _ _ hab hbc => le_trans hbc hab⟩
    simp only [get_orders_response, storeSelectOrders]
    exact List.sorted_insertionSort _ _

/-- A pending order of store "S1". -/
def dbOrder0 : DbOrder := ⟨1, 1, "S1", "pending", "2024-01-01T10:00:00"⟩

/-- A pending order of store "S2". -/
def dbOrder1 : DbOrder := ⟨2, 1, "S2", "pending", "2024-01-01T11:00:00"⟩

/-- C7 witness: with the store holding one "S1" and one "S2" order, the
"S1" session sees the "S1" order with the scoping facts, and the response
list is sorted. -/
theorem c7_witness :
    dbOrder0.store_code = pyStr payload0.store_code ∧
    (dbOrder0.status = "pending" ∨ dbOrder0.status = "paid") ∧
    List.Sorted (fun a b => b.created_at ≤ a.created_at)
      (get_orders_response payload0 [dbOrder0, dbOrder1]) := by
  have h := c7_get_orders_store_scoped payload0 [dbOrder0, dbOrder1]
    "http://s" storeOk
  have hcomp : get_orders_response payload0 [dbOrder0, dbOrder1] =
      [dbOrder0] := by rfl
  have hm : dbOrder0 ∈ get_orders_response payload0 [dbOrder0, dbOrder1] := by
    rw [hcomp]
    exact List.mem_singleton_self dbOrder0
  exact ⟨(h.2.1 dbOrder0 hm).1, (h.2.1 dbOrder0 hm).2, h.2.2⟩

/-- C9: any store status outside 2xx makes each order operation fail with
HTTP 500 and its fixed generic message — the right-hand sides do not
mention the status `s` or the store body `b`, so neither is forwarded —
after exactly one store call (no retries). -/
theorem c9_store_failure_500 (s : Nat) (b : JVal) (user : SessionPayload)
    (payload : Order) (orderId : Int) (m : String) (pbody : JVal)
    (createdAt baseUrl : String) (hs : ¬(200 ≤ s ∧ s ≤ 299)) :
    ((get_orders user baseUrl (fun _ => ⟨s, b⟩)).result =
        .error ⟨500, "Failed to fetch orders"⟩ ∧
      (get_orders user baseUrl (fun _ => ⟨s, b⟩)).calls.length = 1) ∧
    (payload.items ≠ [] → 0 < payload.total →
      (create_order payload user createdAt baseUrl
          (fun _ => ⟨s, b⟩)).result =
        .error ⟨500, "Failed to create order"⟩ ∧
      (create_order payload user createdAt baseUrl
          (fun _ => ⟨s, b⟩)).calls.length = 1) ∧
    (user.perms.canEditOrder = true →
      (update_order orderId pbody user baseUrl (fun _ => ⟨s, b⟩)).result =
        .error ⟨500, "Failed to update order"⟩ ∧
      (update_order orderId pbody user baseUrl
          (fun _ => ⟨s, b⟩)).calls.length = 1) ∧
    (user.perms.canPayOrder = true →
      (pay_order orderId m user baseUrl (fun _ => ⟨s, b⟩)).result =
        .error ⟨500, "Failed to update payment"⟩ ∧
      (pay_order orderId m user baseUrl
          (fun _ => ⟨s, b⟩)).calls.length = 1) := by
  have h200 : ¬(s = 200) := by omega
  have h201 : ¬(s = 201) := by omega
  have h204 : ¬(s = 204) := by omega
  refine ⟨?_, ?_, ?_, ?_⟩
  · constructor <;> simp [get_orders, h200]
  · intro hi ht
    have hcond : ¬(payload.items = [] ∨ payload.total ≤ 0) := by
      push_neg
      exact ⟨hi, ht⟩
    constructor <;> simp [create_order, hcond, h200, h201]
  · intro h
    constructor <;> simp [update_order, h, h200, h204]
  · intro h
    constructor <;> simp [pay_order, h, h200, h204]

/-- C9 witness: a store answering 503 everywhere fails each operation with
its fixed 500 message. -/
theorem c9_witness :
    (get_orders payload0 "http://s" (fun _ => ⟨503, .jnull⟩)).result =
      .error ⟨500, "Failed to fetch orders"⟩ ∧
    (create_order order0 payload0 "t" "http://s"
        (fun _ => ⟨503, .jnull⟩)).result =
      .error ⟨500, "Failed to create order"⟩ ∧
    (update_order 7 .jnull editorUser "http://s"
        (fun _ => ⟨503, .jnull⟩)).result =
      .error ⟨500, "Failed to update order"⟩ ∧
    (pay_order 7 "cash" editorUser "http://s"
        (fun _ => ⟨503, .jnull⟩)).result =
      .error ⟨500, "Failed to update payment"⟩ := by
  have ha := c9_store_failure_500 503 .jnull payload0 order0 7 "cash"
    .jnull "t" "http://s" (by omega)
  have hb := c9_store_failure_500 503 .jnull editorUser order0 7 "cash"
    .jnull "t" "http://s" (by omega)
  exact ⟨ha.1.1, (ha.2.1 (by decide) (by decide)).1, (hb.2.2.1 rfl).1,
    (hb.2.2.2 rfl).1⟩

/-- C10: whenever an order operation fails its local precondition — update
or pay with the required permission flag false, or create with empty items
or nonpositive total — the handler raises before issuing any store call, so
the list of store calls on these error paths is empty for every store. -/
theorem c10_no_store_call_on_precondition_failure (user : SessionPayload)
    (payload : Order) (orderId : Int) (m : String) (pbody : JVal)
    (createdAt baseUrl : String) (store : StoreCall → StoreResp) :
    (payload.items = [] ∨ payload.total ≤ 0 →
      (create_order payload user createdAt baseUrl store).calls = []) ∧
    (user.perms.canEditOrder = false →
      (update_order orderId pbody user baseUrl store).calls = []) ∧
    (user.perms.canPayOrder = false →
      (pay_order orderId m user baseUrl store).calls = []) := by
  refine ⟨fun h => ?_, fun h => ?_, fun h => ?_⟩
  · simp [create_order, h]
  · simp [update_order, h]
  · simp [pay_order, h]

/-- C10 witness: the three precondition failures at concrete inputs issue
no store call. -/
theorem c10_witness :
    (create_order emptyOrder payload0 "t" "http://s" storeOk).calls = [] ∧
    (update_order 7 .jnull payload0 "http://s" storeOk).calls = [] ∧
    (pay_order 7 "cash" payload0 "http://s" storeOk).calls = [] := by
  have h := c10_no_store_call_on_precondition_failure payload0 emptyOrder 7
    "cash" .jnull "t" "http://s" storeOk
  exact ⟨h.1 (Or.inl rfl), h.2.1 rfl, h.2.2 rfl⟩

/-- C8: every successful login whose identity has role "staff" returns a
response whose permissions field is exactly
`{canCreateOrder := true, canEditOrder := false, canViewOrders := false,
canPayOrder := false, canViewReports := false, canManageCash := false}`,
and sets a cookie named "token" with HttpOnly, Secure, SameSite lax and
max-age `expMin * 60` — the session TTL in seconds. -/
theorem c8_login_staff (u : UserRecord) (rest : List UserRecord)
    (secret : String) (expMin : Nat) (now : Int)
    (hrole : u.role = some "staff") :
    login 200 (u :: rest) secret expMin now =
      .ok (⟨u.user_id, u.username, u.full_name, u.store_code, some "staff",
            ⟨true, false, false, false, false, false⟩⟩,
           ⟨"token",
            .signed ⟨u.user_id, u.username, u.full_name, u.store_code,
                     some "staff", ⟨true, false, false, false, false, false⟩⟩
              (now + expMin * 60) secret,
            true, true, "lax", expMin * 60⟩) := by
  have hp : permissions_for "staff" =
      ⟨true, false, false, false, false, false⟩ := by decide
  simp [login, create_jwt, hrole, hp]

/-- A `verify_staff_login` record with role "staff". -/
def staffRec : UserRecord :=
  ⟨some 5, some "carol", some "Carol", some "S1", some "staff"⟩

/-- C8 witness: the concrete staff login at TTL 60 minutes. -/
theorem c8_witness :
    login 200 [staffRec] "sec" 60 0 =
      .ok (⟨some 5, some "carol", some "Carol", some "S1", some "staff",
            ⟨true, false, false, false, false, false⟩⟩,
           ⟨"token",
            .signed ⟨some 5, some "carol", some "Carol", some "S1",
                     some "staff",
                     ⟨true, false, false, false, false, false⟩⟩
              3600 "sec",
            true, true, "lax", 3600⟩) := by
  exact c8_login_staff staffRec [] "sec" 60 0 rfl

end PosApp
